import Mathlib

/-!
Shallow embedding of the CloseAirCombat heading-control task family and the
overload termination unit, from
`src/envs/JSBSim/tasks/heading_task.py` and
`src/envs/JSBSim/termination_conditions/overload.py`.
Machine floating-point values are modelled as exact rationals; the NumPy
constant `np.pi` is modelled by the exact rational value of the IEEE-754
double nearest to pi.
-/

namespace CloseAirCombat

/-- A configuration bag with optional keys; `getattr(config, key, default)` on an
absent key is modelled by `Option.getD`, which always succeeds. -/
structure Config where
  num_fighters : Option ℕ := none
  acceleration_limit_x : Option ℚ := none
  acceleration_limit_y : Option ℚ := none
  acceleration_limit_z : Option ℚ := none

/-- The scalar simulator properties read by the overload unit through the
property interface (`sim.get_property_value`). -/
structure SimState where
  simulation_sim_time_sec : ℚ
  accelerations_n_pilot_x_norm : ℚ
  accelerations_n_pilot_y_norm : ℚ
  accelerations_n_pilot_z_norm : ℚ

/-- The `Overload` termination condition: three per-axis acceleration limits. -/
structure Overload where
  acceleration_limit_x : ℚ
  acceleration_limit_y : ℚ
  acceleration_limit_z : ℚ

/-- `Overload.__init__`: each limit is read from the configuration with
default `10.0` (unit: g). -/
def Overload.init (config : Config) : Overload :=
  { acceleration_limit_x := config.acceleration_limit_x.getD 10
    acceleration_limit_y := config.acceleration_limit_y.getD 10
    acceleration_limit_z := config.acceleration_limit_z.getD 10 }

/-- `Overload._judge_overload`: after 10 seconds of simulated time, the flag is
raised when any axis exceeds its limit in absolute value, with a `+1` offset
applied on the z-axis reading before the check. -/
def Overload.judge_overload (self : Overload) (sim : SimState) : Bool :=
  let flag_overload := false
  if sim.simulation_sim_time_sec > 10 then
    if |sim.accelerations_n_pilot_x_norm| > self.acceleration_limit_x
        ∨ |sim.accelerations_n_pilot_y_norm| > self.acceleration_limit_y
        ∨ |sim.accelerations_n_pilot_z_norm + 1| > self.acceleration_limit_z then
      true
    else flag_overload
  else flag_overload

/-- `Overload.get_termination`: done is `_judge_overload`; success is always
`False` (the diagnostic print is observability only and is not modelled). -/
def Overload.get_termination (self : Overload) (sim : SimState) : Bool × Bool :=
  let done := self.judge_overload sim
  let success := false
  (done, success)

/-- Modelled from the spec: `BaseTask.get_termination` lives in
`task_base.py`, which is not among the shown sources; only its override site
`HeadingTask.get_termination` (a plain `super()` call) is. The spec states:
evaluates Termination Units in declared order; returns the first `done=true`
verdict; if no unit signals done, returns `(false, false)`. -/
def BaseTask.get_termination (termination_conditions : List (SimState → Bool × Bool))
    (sim : SimState) : Bool × Bool :=
  match termination_conditions with
  | [] => (false, false)
  | condition :: rest =>
    let verdict := condition sim
    if verdict.1 then verdict else BaseTask.get_termination rest sim

/-- A `gym.spaces.Box` of dimension `n`: per-component lower and upper bounds. -/
structure Box (n : ℕ) where
  low : Fin n → ℚ
  high : Fin n → ℚ

/-- A `gym.spaces.MultiDiscrete` of dimension `n`: per-component cardinalities. -/
structure MultiDiscrete (n : ℕ) where
  nvec : Fin n → ℕ

/-- The exact rational value of the IEEE-754 double `np.pi`
(3.14159265358979311599...). -/
def np_pi : ℚ := 884279719003555 / 281474976710656

/-- Elementwise `np.clip(action, lo, hi)` on a length-4 vector:
`min(max(action_k, lo_k), hi_k)` in each component. -/
def np.clip (action lo hi : Fin 4 → ℚ) : Fin 4 → ℚ :=
  fun k => min (max (action k) (lo k)) (hi k)

/-- The observable state of a constructed `HeadingTask` (discrete variant):
fighter and agent counts and the declared observation and action spaces. -/
structure HeadingTask where
  num_fighters : ℕ
  num_agents : ℕ
  observation_space : List (Box 8)
  action_space : List (MultiDiscrete 4)

/-- `HeadingTask.__init__` together with `load_observation_space` and
`load_action_space`: `num_fighters` is read from the configuration with
default 2; the assertion `num_fighters == 1` is modelled by `Except.error`;
on success one `Box(low=-10, high=10, shape=(8,))` observation space and one
`MultiDiscrete([41, 41, 41, 30])` action space per agent are declared. -/
def HeadingTask.init (config : Config) : Except String HeadingTask :=
  let num_fighters := config.num_fighters.getD 2
  if num_fighters = 1 then
    Except.ok
      { num_fighters := num_fighters
        num_agents := num_fighters
        observation_space := List.replicate num_fighters
          { low := fun _ => -10, high := fun _ => 10 }
        action_space := List.replicate num_fighters
          { nvec := ![41, 41, 41, 30] } }
  else
    Except.error "Heading task only support one fighter!"

/-- `HeadingTask.normalize_observation`: reads only `obsersvations[0]`
(the parameter name keeps the spelling of the source), scales delta altitude by
`0.304 / 1000`, converts delta heading from degrees to radians, passes roll and
pitch through, scales the four velocity components by `0.304 / 340`, and wraps
the result with `np.expand_dims` into shape `(1, 8)`; an empty input list,
which would raise in the source, is `none`. -/
def HeadingTask.normalize_observation (obsersvations : List (Fin 8 → ℚ)) :
    Option (Fin 1 → Fin 8 → ℚ) :=
  match obsersvations with
  | [] => none
  | ego_obs_list :: _ =>
    some fun _ =>
      ![ego_obs_list 0 * (304/1000) / 1000,
        ego_obs_list 1 / 180 * np_pi,
        ego_obs_list 2,
        ego_obs_list 3,
        ego_obs_list 4 * (304/1000) / 340,
        ego_obs_list 5 * (304/1000) / 340,
        ego_obs_list 6 * (304/1000) / 340,
        ego_obs_list 7 * (304/1000) / 340]

/-- The inner `_normalize` of `HeadingTask.normalize_action`: each discrete
index is mapped affinely using `self.action_space[0].nvec`, with the literal
coefficients of the source (`* 2 / (nvec_k - 1) - 1` for the first three
components, `* 0.5 / (nvec_3 - 1) + 0.4` for throttle). -/
def HeadingTask.normalizeOne (self : HeadingTask) (action : Fin 4 → ℚ) : Fin 4 → ℚ :=
  let nvec := (self.action_space.headD { nvec := ![41, 41, 41, 30] }).nvec
  ![action 0 * 2 / ((nvec 0 : ℚ) - 1) - 1,
    action 1 * 2 / ((nvec 1 : ℚ) - 1) - 1,
    action 2 * 2 / ((nvec 2 : ℚ) - 1) - 1,
    action 3 * (1/2) / ((nvec 3 : ℚ) - 1) + 2/5]

/-- `HeadingTask.normalize_action`: applies `_normalize` to
`actions[agent_id]` for each `agent_id` in `range(num_fighters)`. -/
def HeadingTask.normalize_action (self : HeadingTask) (actions : List (Fin 4 → ℚ)) :
    List (Fin 4 → ℚ) :=
  (List.range self.num_fighters).map fun agent_id =>
    self.normalizeOne (actions.getD agent_id fun _ => 0)

/-- The declared lower bounds of the continuous action space
(`[-1.0, -1.0, -1.0, 0.4]`), also the clip floor in
`HeadingContinuousTask.normalize_action`. -/
def continuous_low : Fin 4 → ℚ := ![-1, -1, -1, 2/5]

/-- The declared upper bounds of the continuous action space
(`[1.0, 1.0, 1.0, 0.9]`), also the clip ceiling in
`HeadingContinuousTask.normalize_action`. -/
def continuous_high : Fin 4 → ℚ := ![1, 1, 1, 9/10]

/-- The observable state of a constructed `HeadingContinuousTask`: as the base
task but with a `Box` action space. -/
structure HeadingContinuousTask where
  num_fighters : ℕ
  num_agents : ℕ
  observation_space : List (Box 8)
  action_space : List (Box 4)

/-- `HeadingContinuousTask.__init__`: runs the base constructor with the
overridden `load_action_space`, declaring one
`Box(low=[-1,-1,-1,0.4], high=[1,1,1,0.9])` per agent. -/
def HeadingContinuousTask.init (config : Config) : Except String HeadingContinuousTask :=
  let num_fighters := config.num_fighters.getD 2
  if num_fighters = 1 then
    Except.ok
      { num_fighters := num_fighters
        num_agents := num_fighters
        observation_space := List.replicate num_fighters
          { low := fun _ => -10, high := fun _ => 10 }
        action_space := List.replicate num_fighters
          { low := continuous_low, high := continuous_high } }
  else
    Except.error "Heading task only support one fighter!"

/-- The inner `_normalize` of `HeadingContinuousTask.normalize_action`:
`np.clip(action, [-1,-1,-1,0.4], [1,1,1,0.9])`. -/
def HeadingContinuousTask.normalizeOne (action : Fin 4 → ℚ) : Fin 4 → ℚ :=
  np.clip action continuous_low continuous_high

/-- `HeadingContinuousTask.normalize_action`: applies the clip to
`actions[agent_id]` for each `agent_id` in `range(num_fighters)`. -/
def HeadingContinuousTask.normalize_action (self : HeadingContinuousTask)
    (actions : List (Fin 4 → ℚ)) : List (Fin 4 → ℚ) :=
  (List.range self.num_fighters).map fun agent_id =>
    HeadingContinuousTask.normalizeOne (actions.getD agent_id fun _ => 0)

/-- `HeadingContinuousTask` does not override `normalize_observation`; it is
inherited unchanged from `HeadingTask`. -/
def HeadingContinuousTask.normalize_observation :
    List (Fin 8 → ℚ) → Option (Fin 1 → Fin 8 → ℚ) :=
  HeadingTask.normalize_observation

/-- `HeadingAndAltitudeTask` does not override `normalize_observation` either;
it is inherited unchanged from `HeadingTask`. -/
def HeadingAndAltitudeTask.normalize_observation :
    List (Fin 8 → ℚ) → Option (Fin 1 → Fin 8 → ℚ) :=
  HeadingTask.normalize_observation

/-- The task produced by a one-fighter configuration (see
`construction_guard`). -/
def headingTask1 : HeadingTask :=
  { num_fighters := 1
    num_agents := 1
    observation_space := [{ low := fun _ => -10, high := fun _ => 10 }]
    action_space := [{ nvec := ![41, 41, 41, 30] }] }

/-- The continuous task produced by a one-fighter configuration. -/
def headingContinuousTask1 : HeadingContinuousTask :=
  { num_fighters := 1
    num_agents := 1
    observation_space := [{ low := fun _ => -10, high := fun _ => 10 }]
    action_space := [{ low := continuous_low, high := continuous_high }] }

/-- The per-dimension cardinalities of the discrete action space. -/
def nvec0 : Fin 4 → ℕ := ![41, 41, 41, 30]

/-- The documented lower bounds of the discrete action target ranges
(aileron, elevator, rudder in `[-1, 1]`; throttle in `[0.4, 0.9]`). -/
def discrete_low : Fin 4 → ℚ := ![-1, -1, -1, 2/5]

/-- The documented upper bounds of the discrete action target ranges. -/
def discrete_high : Fin 4 → ℚ := ![1, 1, 1, 9/10]

end CloseAirCombat

namespace CloseAirCombat

/-- A concrete simulator state used by witnesses. -/
def simZero : SimState := ⟨0, 0, 0, 0⟩

/-- Claim C1: for every agent and every simulator state, `get_termination`
evaluates the Termination Units in declared order and returns the verdict of
the first unit reporting done, independently of every later unit; if no unit
reports done, it returns `(false, false)`. -/
theorem get_termination_first_done_wins :
    (∀ (pre post : List (SimState → Bool × Bool)) (u : SimState → Bool × Bool)
        (sim : SimState),
        (∀ v ∈ pre, (v sim).1 = false) → (u sim).1 = true →
        BaseTask.get_termination (pre ++ u :: post) sim = u sim)
    ∧ ∀ (units : List (SimState → Bool × Bool)) (sim : SimState),
        (∀ v ∈ units, (v sim).1 = false) →
        BaseTask.get_termination units sim = (false, false) := by
  constructor
  · intro pre post u sim hpre hu
    induction pre with
    | nil => simp [BaseTask.get_termination, hu]
    | cons v rest ih =>
      have hv : (v sim).1 = false := hpre v (List.mem_cons_self v rest)
      have hrest : ∀ w ∈ rest, (w sim).1 = false := fun w hw =>
        hpre w (List.mem_cons_of_mem v hw)
      simp [BaseTask.get_termination, hv, ih hrest]
  · intro units sim h
    induction units with
    | nil => rfl
    | cons v rest ih =>
      have hv : (v sim).1 = false := h v (List.mem_cons_self v rest)
      have hrest : ∀ w ∈ rest, (w sim).1 = false := fun w hw =>
        h w (List.mem_cons_of_mem v hw)
      simp [BaseTask.get_termination, hv, ih hrest]

/-- Witness for C1: with a first unit reporting no done, a second reporting
done with success, and a third reporting done without success, the fold
returns the verdict of the second unit. -/
theorem get_termination_first_done_wins_witness :
    BaseTask.get_termination
      [fun _ : SimState => (false, false), fun _ => (true, true), fun _ => (true, false)]
      simZero = (true, true) := by
  have h := get_termination_first_done_wins.1
    [fun _ : SimState => (false, false)] [fun _ => (true, false)]
    (fun _ => (true, true)) simZero
    (by intro v hv; simp only [List.mem_singleton] at hv; subst hv; rfl) rfl
  exact h

/-- Claim C3: the overload unit reports `(false, false)` whenever simulated
time is at most 10 seconds; past 10 seconds it reports done exactly when some
axis exceeds its limit in absolute value (with the `+1` offset on the z-axis
reading), and its success component is always false. -/
theorem overload_grace_and_threshold (o : Overload) (sim : SimState) :
    (sim.simulation_sim_time_sec ≤ 10 → o.get_termination sim = (false, false))
    ∧ (10 < sim.simulation_sim_time_sec →
        ((o.get_termination sim).1 = true ↔
          o.acceleration_limit_x < |sim.accelerations_n_pilot_x_norm|
            ∨ o.acceleration_limit_y < |sim.accelerations_n_pilot_y_norm|
            ∨ o.acceleration_limit_z < |sim.accelerations_n_pilot_z_norm + 1|))
    ∧ (o.get_termination sim).2 = false := by
  refine ⟨?_, ?_, rfl⟩
  · intro h
    simp only [Overload.get_termination, Overload.judge_overload]
    rw [if_neg (not_lt.mpr h)]
  · intro h
    simp only [Overload.get_termination, Overload.judge_overload]
    rw [if_pos h]
    split_ifs with hc
    · simp only [hc]
    · simp only [hc, iff_false]

/-- Witness for C3: at 20 seconds with an x-axis acceleration of 11 g and the
default limits, the unit reports done, and its success component is false. -/
theorem overload_grace_and_threshold_witness :
    (10 : ℚ) < 20
      ∧ (((Overload.init {}).get_termination ⟨20, 11, 0, 0⟩).1 = true
          ↔ (Overload.init {}).acceleration_limit_x < |(11 : ℚ)|
            ∨ (Overload.init {}).acceleration_limit_y < |(0 : ℚ)|
            ∨ (Overload.init {}).acceleration_limit_z < |(0 : ℚ) + 1|)
      ∧ ((Overload.init {}).get_termination ⟨20, 11, 0, 0⟩).2 = false := by
  refine ⟨by norm_num, ?_, ?_⟩
  · exact (overload_grace_and_threshold (Overload.init {}) ⟨20, 11, 0, 0⟩).2.1 (by norm_num)
  · exact (overload_grace_and_threshold (Overload.init {}) ⟨20, 11, 0, 0⟩).2.2

end CloseAirCombat

namespace CloseAirCombat

/-- Claim C4: constructing the heading task with `num_fighters = 2` fails the
construction-time assertion; with `num_fighters = 1` it succeeds and the task
has exactly one observation-space entry and one action-space entry. -/
theorem construction_guard :
    HeadingTask.init { num_fighters := some 2 } =
        Except.error "Heading task only support one fighter!"
    ∧ ∃ t : HeadingTask, HeadingTask.init { num_fighters := some 1 } = Except.ok t
        ∧ t.observation_space.length = 1 ∧ t.action_space.length = 1 :=
  ⟨rfl, headingTask1, rfl, rfl, rfl⟩

/-- Claim C5: absent optional configuration keys fall back to their defaults
(`num_fighters` to 2, each acceleration limit to 10.0 g): reading them is
total, the overload unit built from an empty configuration equals the one
built with the defaults spelled out, and task construction from an empty
configuration behaves exactly as with `num_fighters = 2` supplied. -/
theorem config_defaults :
    (({} : Config).num_fighters.getD 2 = 2
      ∧ ({} : Config).acceleration_limit_x.getD 10 = 10
      ∧ ({} : Config).acceleration_limit_y.getD 10 = 10
      ∧ ({} : Config).acceleration_limit_z.getD 10 = 10)
    ∧ Overload.init {} =
        { acceleration_limit_x := 10, acceleration_limit_y := 10
          acceleration_limit_z := 10 }
    ∧ Overload.init {} = Overload.init
        { acceleration_limit_x := some 10, acceleration_limit_y := some 10
          acceleration_limit_z := some 10 }
    ∧ HeadingTask.init {} = HeadingTask.init { num_fighters := some 2 }
    ∧ HeadingContinuousTask.init {} =
        HeadingContinuousTask.init { num_fighters := some 2 } :=
  ⟨⟨rfl, rfl, rfl, rfl⟩, rfl, rfl, rfl, rfl⟩

/-- Claim C9: the public shapes are fixed: the one-fighter task declares one
observation `Box` of dimension 8 with bounds `[-10, 10]`, one discrete action
space with cardinalities `[41, 41, 41, 30]`, the continuous variant one `Box`
bounded by `[-1,-1,-1,0.4]` and `[1,1,1,0.9]`, and `normalize_observation`
returns a vector of shape `(1, 8)` on every nonempty input. -/
theorem fixed_shapes :
    headingTask1.observation_space = [{ low := fun _ => -10, high := fun _ => 10 }]
    ∧ headingTask1.action_space = [{ nvec := ![41, 41, 41, 30] }]
    ∧ headingContinuousTask1.observation_space =
        [{ low := fun _ => -10, high := fun _ => 10 }]
    ∧ headingContinuousTask1.action_space =
        [{ low := ![-1, -1, -1, 2/5], high := ![1, 1, 1, 9/10] }]
    ∧ ∀ (ego : Fin 8 → ℚ) (rest : List (Fin 8 → ℚ)),
        ∃ v : Fin 1 → Fin 8 → ℚ,
          HeadingTask.normalize_observation (ego :: rest) = some v :=
  ⟨rfl, rfl, rfl, rfl, fun _ _ => ⟨_, rfl⟩⟩

/-- Helper: the inner discrete normalization of the one-fighter task equals
the affine map `lo + i * (hi - lo) / (nvec - 1)` in every dimension. -/
theorem normalizeOne_affine (a : Fin 4 → ℚ) (k : Fin 4) :
    headingTask1.normalizeOne a k
      = discrete_low k + a k * (discrete_high k - discrete_low k)
          / ((nvec0 k : ℚ) - 1) := by
  fin_cases k <;>
    simp [HeadingTask.normalizeOne, headingTask1, discrete_low, discrete_high,
      nvec0] <;>
    ring

/-- Claim C2: for the discrete task, every index `i` within the declared
cardinality maps in dimension `k` to exactly
`lo_k + i * (hi_k - lo_k) / (nvec_k - 1)`; index 0 yields `lo_k` and index
`nvec_k - 1` yields `hi_k` exactly. -/
theorem discrete_action_affine_map (a : Fin 4 → ℚ) (k : Fin 4) (i : ℕ)
    (hrange : i ≤ nvec0 k - 1) (hak : a k = (i : ℚ)) :
    (headingTask1.normalize_action [a]).headD (fun _ => 0) k
        = discrete_low k + (i : ℚ) * (discrete_high k - discrete_low k)
            / ((nvec0 k : ℚ) - 1)
    ∧ (i = 0 →
        (headingTask1.normalize_action [a]).headD (fun _ => 0) k = discrete_low k)
    ∧ (i = nvec0 k - 1 →
        (headingTask1.normalize_action [a]).headD (fun _ => 0) k = discrete_high k) := by
  have hmain : (headingTask1.normalize_action [a]).headD (fun _ => 0) k
      = discrete_low k + (i : ℚ) * (discrete_high k - discrete_low k)
          / ((nvec0 k : ℚ) - 1) := by
    show headingTask1.normalizeOne a k = _
    rw [normalizeOne_affine, hak]
  refine ⟨hmain, ?_, ?_⟩
  · intro h0
    rw [hmain, h0]
    fin_cases k <;> norm_num [discrete_low, discrete_high, nvec0]
  · intro hN
    rw [hmain, hN]
    fin_cases k <;> norm_num [discrete_low, discrete_high, nvec0]

/-- Witness for C2: in the throttle dimension, index 29 = nvec - 1 maps
exactly to the upper bound 0.9. -/
theorem discrete_action_affine_map_witness :
    (29 ≤ nvec0 3 - 1 ∧ (fun _ : Fin 4 => (29 : ℚ)) 3 = ((29 : ℕ) : ℚ))
      ∧ (headingTask1.normalize_action [fun _ => (29 : ℚ)]).headD (fun _ => 0) 3
          = discrete_high 3 := by
  refine ⟨⟨by norm_num [nvec0], by norm_num⟩, ?_⟩
  exact (discrete_action_affine_map (fun _ => (29 : ℚ)) 3 29 (by norm_num [nvec0])
    (by norm_num)).2.2 (by norm_num [nvec0])

end CloseAirCombat

namespace CloseAirCombat

/-- Claim C8: the discrete normalization applies the same affine formula to
every integer input with no bounds check and no clamping, so an out-of-range
index yields an output outside the declared range rather than an error. -/
theorem discrete_action_unchecked (a : Fin 4 → ℤ) (k : Fin 4) :
    (headingTask1.normalize_action [fun j => (a j : ℚ)]).headD (fun _ => 0) k
        = discrete_low k + (a k : ℚ) * (discrete_high k - discrete_low k)
            / ((nvec0 k : ℚ) - 1)
    ∧ ((a k < 0 ∨ (nvec0 k : ℤ) - 1 < a k) →
        ((headingTask1.normalize_action [fun j => (a j : ℚ)]).headD (fun _ => 0) k
            < discrete_low k
          ∨ discrete_high k <
              (headingTask1.normalize_action [fun j => (a j : ℚ)]).headD
                (fun _ => 0) k)) := by
  have hmain : (headingTask1.normalize_action [fun j => (a j : ℚ)]).headD
      (fun _ => 0) k
      = discrete_low k + (a k : ℚ) * (discrete_high k - discrete_low k)
          / ((nvec0 k : ℚ) - 1) := by
    show headingTask1.normalizeOne (fun j => (a j : ℚ)) k = _
    exact normalizeOne_affine (fun j => (a j : ℚ)) k
  have hbelow : ∀ (x : ℚ), x < 0 →
      discrete_low k + x * (discrete_high k - discrete_low k) / ((nvec0 k : ℚ) - 1)
        < discrete_low k := by
    intro x hx
    fin_cases k <;> norm_num [discrete_low, discrete_high, nvec0] <;> linarith
  have habove : ∀ (x : ℚ), (nvec0 k : ℚ) - 1 < x →
      discrete_high k <
        discrete_low k + x * (discrete_high k - discrete_low k) / ((nvec0 k : ℚ) - 1) := by
    intro x hx
    fin_cases k <;> norm_num [discrete_low, discrete_high, nvec0] at hx ⊢ <;> linarith
  refine ⟨hmain, ?_⟩
  rintro (hneg | hbig)
  · left
    rw [hmain]
    exact hbelow ((a k : ℚ)) (by exact_mod_cast hneg)
  · right
    rw [hmain]
    exact habove ((a k : ℚ)) (by exact_mod_cast hbig)

/-- Witness for C8: the out-of-range aileron index -5 is accepted and yields a
value below the lower bound -1. -/
theorem discrete_action_unchecked_witness :
    ((-5 : ℤ) < 0 ∨ (nvec0 0 : ℤ) - 1 < -5)
      ∧ ((headingTask1.normalize_action [fun j => (((fun _ => (-5 : ℤ)) j : ℤ) : ℚ)]).headD
            (fun _ => 0) 0 < discrete_low 0
          ∨ discrete_high 0 <
              (headingTask1.normalize_action
                [fun j => (((fun _ => (-5 : ℤ)) j : ℤ) : ℚ)]).headD (fun _ => 0) 0) := by
  refine ⟨Or.inl (by norm_num), ?_⟩
  exact (discrete_action_unchecked (fun _ => (-5 : ℤ)) 0).2 (Or.inl (by norm_num))

/-- Helper: the declared continuous bounds are ordered in every dimension. -/
theorem continuous_low_le_high (k : Fin 4) : continuous_low k ≤ continuous_high k := by
  fin_cases k <;> norm_num [continuous_low, continuous_high]

/-- Helper: clipping a value already inside the bounds returns it unchanged. -/
theorem clip_eq_self_of_mem (a : Fin 4 → ℚ) (k : Fin 4)
    (h1 : continuous_low k ≤ a k) (h2 : a k ≤ continuous_high k) :
    HeadingContinuousTask.normalizeOne a k = a k := by
  unfold HeadingContinuousTask.normalizeOne np.clip
  rw [max_eq_left h1, min_eq_left h2]

/-- Helper: the clipped value always lies inside the declared bounds. -/
theorem clip_mem (a : Fin 4 → ℚ) (k : Fin 4) :
    continuous_low k ≤ HeadingContinuousTask.normalizeOne a k
      ∧ HeadingContinuousTask.normalizeOne a k ≤ continuous_high k := by
  unfold HeadingContinuousTask.normalizeOne np.clip
  exact ⟨le_min (le_max_right _ _) (continuous_low_le_high k), min_le_right _ _⟩

/-- Claim C6: the continuous normalization clamps each component into the
declared bounds, is idempotent, passes in-bounds inputs through unchanged, and
silently saturates out-of-range values to the nearest bound. -/
theorem continuous_clamp (a : Fin 4 → ℚ) (k : Fin 4) :
    (continuous_low k ≤ HeadingContinuousTask.normalizeOne a k
        ∧ HeadingContinuousTask.normalizeOne a k ≤ continuous_high k)
    ∧ HeadingContinuousTask.normalizeOne (HeadingContinuousTask.normalizeOne a)
        = HeadingContinuousTask.normalizeOne a
    ∧ (continuous_low k ≤ a k → a k ≤ continuous_high k →
        HeadingContinuousTask.normalizeOne a k = a k)
    ∧ (a k < continuous_low k →
        HeadingContinuousTask.normalizeOne a k = continuous_low k)
    ∧ (continuous_high k < a k →
        HeadingContinuousTask.normalizeOne a k = continuous_high k) := by
  refine ⟨clip_mem a k, ?_, fun h1 h2 => clip_eq_self_of_mem a k h1 h2, ?_, ?_⟩
  · funext j
    exact clip_eq_self_of_mem _ j (clip_mem a j).1 (clip_mem a j).2
  · intro h
    unfold HeadingContinuousTask.normalizeOne np.clip
    rw [max_eq_right h.le, min_eq_left (continuous_low_le_high k)]
  · intro h
    unfold HeadingContinuousTask.normalizeOne np.clip
    rw [max_eq_left ((continuous_low_le_high k).trans h.le), min_eq_right h.le]

/-- Witness for C6: the in-range throttle value 0.5 passes through unchanged,
and the out-of-range aileron value 5 saturates to the upper bound 1. -/
theorem continuous_clamp_witness :
    (continuous_low 3 ≤ (1/2 : ℚ) ∧ (1/2 : ℚ) ≤ continuous_high 3
      ∧ HeadingContinuousTask.normalizeOne (fun _ => 1/2) 3 = 1/2)
    ∧ (continuous_high 0 < (5 : ℚ)
      ∧ HeadingContinuousTask.normalizeOne (fun _ => 5) 0 = continuous_high 0) := by
  have hlo : continuous_low 3 ≤ (1/2 : ℚ) := by norm_num [continuous_low]
  have hhi : (1/2 : ℚ) ≤ continuous_high 3 := by norm_num [continuous_high]
  have h5 : continuous_high 0 < (5 : ℚ) := by norm_num [continuous_high]
  exact ⟨⟨hlo, hhi, (continuous_clamp (fun _ => 1/2) 3).2.2.1 hlo hhi⟩,
    ⟨h5, (continuous_clamp (fun _ => 5) 0).2.2.2.2 h5⟩⟩

end CloseAirCombat

namespace CloseAirCombat

/-- Claim C7: `normalize_observation` is linear in each raw component (scaling
one raw input component scales the corresponding observation component by the
same factor), with the fixed per-component scalings `raw * 0.304 / 1000` for
delta altitude, `raw * pi / 180` for delta heading, identity for roll and
pitch, and `raw * 0.304 / 340` for the four velocity components. -/
theorem observation_scaling_linear (ego : Fin 8 → ℚ) (rest : List (Fin 8 → ℚ))
    (k : Fin 8) (t : ℚ) :
    (HeadingTask.normalize_observation
        (Function.update ego k (t * ego k) :: rest)).map (fun o => o 0 k)
      = (HeadingTask.normalize_observation (ego :: rest)).map (fun o => t * o 0 k)
    ∧ HeadingTask.normalize_observation (ego :: rest)
      = some fun _ =>
          ![ego 0 * ((304/1000) / 1000),
            ego 1 * (np_pi / 180),
            ego 2,
            ego 3,
            ego 4 * ((304/1000) / 340),
            ego 5 * ((304/1000) / 340),
            ego 6 * ((304/1000) / 340),
            ego 7 * ((304/1000) / 340)] := by
  constructor
  · have hcomp : ∀ j : Fin 8,
        HeadingTask.normalize_observation (Function.update ego j (t * ego j) :: rest)
          = some fun _ =>
            ![Function.update ego j (t * ego j) 0 * (304/1000) / 1000,
              Function.update ego j (t * ego j) 1 / 180 * np_pi,
              Function.update ego j (t * ego j) 2,
              Function.update ego j (t * ego j) 3,
              Function.update ego j (t * ego j) 4 * (304/1000) / 340,
              Function.update ego j (t * ego j) 5 * (304/1000) / 340,
              Function.update ego j (t * ego j) 6 * (304/1000) / 340,
              Function.update ego j (t * ego j) 7 * (304/1000) / 340] :=
      fun j => rfl
    rw [hcomp k]
    show some _ = some _
    congr 1
    fin_cases k
    · show t * ego 0 * (304/1000) / 1000 = t * (ego 0 * (304/1000) / 1000)
      ring
    · show t * ego 1 / 180 * np_pi = t * (ego 1 / 180 * np_pi)
      ring
    · show t * ego 2 = t * ego 2
      rfl
    · show t * ego 3 = t * ego 3
      rfl
    · show t * ego 4 * (304/1000) / 340 = t * (ego 4 * (304/1000) / 340)
      ring
    · show t * ego 5 * (304/1000) / 340 = t * (ego 5 * (304/1000) / 340)
      ring
    · show t * ego 6 * (304/1000) / 340 = t * (ego 6 * (304/1000) / 340)
      ring
    · show t * ego 7 * (304/1000) / 340 = t * (ego 7 * (304/1000) / 340)
      ring
  · show some _ = some _
    congr 1
    funext i j
    fin_cases j
    · show ego 0 * (304/1000) / 1000 = ego 0 * ((304/1000) / 1000)
      ring
    · show ego 1 / 180 * np_pi = ego 1 * (np_pi / 180)
      ring
    · show ego 2 = ego 2
      rfl
    · show ego 3 = ego 3
      rfl
    · show ego 4 * (304/1000) / 340 = ego 4 * ((304/1000) / 340)
      ring
    · show ego 5 * (304/1000) / 340 = ego 5 * ((304/1000) / 340)
      ring
    · show ego 6 * (304/1000) / 340 = ego 6 * ((304/1000) / 340)
      ring
    · show ego 7 * (304/1000) / 340 = ego 7 * ((304/1000) / 340)
      ring

/-- Claim C10: `normalize_observation` depends only on the first entry of the
observations list, and the continuous and heading-and-altitude variants
inherit the very same function. -/
theorem observation_depends_on_first_entry (e1 e2 : Fin 8 → ℚ)
    (rest1 rest2 : List (Fin 8 → ℚ)) (h : ∀ j, e1 j = e2 j) :
    HeadingTask.normalize_observation (e1 :: rest1)
        = HeadingTask.normalize_observation (e2 :: rest2)
    ∧ HeadingContinuousTask.normalize_observation = HeadingTask.normalize_observation
    ∧ HeadingAndAltitudeTask.normalize_observation = HeadingTask.normalize_observation := by
  have he : e1 = e2 := funext h
  subst he
  exact ⟨rfl, rfl, rfl⟩

/-- Witness for C10: equal first entries with different tails yield the same
observation. -/
theorem observation_depends_on_first_entry_witness :
    HeadingTask.normalize_observation [fun _ => (1 : ℚ)]
      = HeadingTask.normalize_observation [fun _ => (1 : ℚ), fun _ => (2 : ℚ)] :=
  (observation_depends_on_first_entry (fun _ => 1) (fun _ => 1) []
    [fun _ => 2] (fun _ => rfl)).1

end CloseAirCombat
